import Mathlib

/-!
# Verification of the drachtio-presence-agent subscription engine

Shallow embedding of the repository's source files:

* `src/lib/utils.js`            — AOR/header utilities
* `src/lib/subscribe.js`        — subscription lifecycle engine
* `src/lib/events/packages/dialog.js` — dialog event package
* `src/unnamed/part_001`        — redis-backed persistent store (`RedisDb`)

JavaScript dynamic values are modelled explicitly: a possibly-`undefined`
string is `Option String` (`none` = `undefined`), template-literal
interpolation of such a value is `jsShow` (which renders `undefined` as the
literal text "undefined", exactly as JS does), and JS truthiness of a string
value is `jsTruthy` (`undefined` and the empty string are falsy).
-/

/-- JS template-literal interpolation of a possibly-undefined string:
`undefined` prints as the literal text "undefined". -/
def jsShow (o : Option String) : String :=
  match o with
  | some s => s
  | none => "undefined"

/-- JS truthiness of a possibly-undefined string value: `undefined` and `""`
are falsy, every other string is truthy. -/
def jsTruthy (o : Option String) : Bool :=
  match o with
  | some s => s ≠ ""
  | none => false

/-- Decimal value of a list of digit characters (most significant first). -/
def digitsVal (cs : List Char) : Nat :=
  cs.foldl (fun a c => 10 * a + (c.toNat - 48)) 0

/-- JS `parseInt` restricted to the shapes that occur in this program
(header values and counters are plain decimal digit strings): the maximal
leading run of decimal digits is parsed; if there is none the result is
`NaN`, modelled as `none`.  Sign, whitespace and radix prefixes do not occur
in the inputs the program feeds to `parseInt`. -/
def jsParseInt (s : String) : Option Nat :=
  let ds := s.toList.takeWhile Char.isDigit
  if ds.isEmpty then none else some (digitsVal ds)

/-- JS `ToNumber` of a possibly-undefined string, rendered back as the text a
template literal would print: `undefined` → "NaN", `""` → "0", a decimal
digit string → its canonical numeral, anything else → "NaN".  Used for the
`${subscriptionData.count++}` interpolation in `makeXmlContent`
(src/lib/events/packages/dialog.js), whose inputs are stored counter values. -/
def jsToNumberStr (o : Option String) : String :=
  match o with
  | none => "NaN"
  | some s =>
    if s = "" then "0"
    else if s.toList.all Char.isDigit then toString (digitsVal s.toList) else "NaN"

/-! ## Store key construction (src/unnamed/part_001 and dialog.js)

Each definition is the direct transcription of the corresponding template
literal in the source.  Note that `makeDialogInfoKey` in
src/lib/events/packages/dialog.js line 37 is the template
with a doubled dollar sign, which renders one literal `$` before the
interpolated AOR. -/

/-- src/lib/events/packages/dialog.js line 37: the template contains `$$`,
i.e. a literal dollar sign followed by the interpolation of `aor`. -/
def makeDialogInfoKey (aor : String) : String := "dlg-info:$" ++ aor

/-- src/lib/events/packages/dialog.js line 38. -/
def makeSubscriptionName (subscriber resource : String) : String :=
  "dlg-sub:" ++ subscriber ++ "-" ++ resource

/-- src/lib/events/packages/dialog.js line 39. -/
def makeSubscribedResourceKey (resource : String) : String :=
  "watched-aor:" ++ resource

/-- src/unnamed/part_001 line 411. -/
def makeRegKey (aor : String) : String := "reg:" ++ aor

/-- src/unnamed/part_001 line 415. -/
def makeEventStateKey (aor event : String) : String :=
  "es:" ++ aor ++ ":" ++ event

/-- src/unnamed/part_001 line 419; the opaque suffix (`translator.new()`) is
passed in as a parameter. -/
def makeSubStateKey (fresh : String) : String := "sub:" ++ fresh

/-- src/unnamed/part_001 line 423. -/
def makeSubStateKeyId (subscriber resource event id : String) : String :=
  "subkeyid:" ++ resource ++ ":" ++ event ++ ":" ++ subscriber ++ ":" ++ id

/-- src/unnamed/part_001 line 427. -/
def makeSubStateKeyDialog (subscriber resource event callid : String) : String :=
  "subkeydlg:" ++ resource ++ ":" ++ event ++ ":" ++ subscriber ++ ":" ++ callid

/-- src/unnamed/part_001 line 431. -/
def makeSubStateKeyWildCard (resource event : String) : String :=
  "subkeydlg:" ++ resource ++ ":" ++ event ++ ":*"

/-- src/unnamed/part_001 line 11: the single global sorted index. -/
def ZSET : String := "event_zset"

/-- The dialog-info key exactly as the specification's key-naming table words
it: the string `dlg-info:` immediately followed by the AOR.  Used only to
compare the source's `makeDialogInfoKey` against the specified convention. -/
def specDialogInfoKey (aor : String) : String := "dlg-info:" ++ aor

/-! ## AOR utilities (src/lib/utils.js) -/

/-- Split a character list at every occurrence of `sep` (the list-level
equivalent of splitting a string on a one-character separator; an empty
input yields one empty part, like `"".split`). -/
def splitOnChar (sep : Char) : List Char → List (List Char)
  | [] => [[]]
  | c :: rest =>
    let r := splitOnChar sep rest
    if c = sep then [] :: r
    else
      match r with
      | h :: t => (c :: h) :: t
      | [] => [[c]]

/-- The anchored IPv4 regular expression of src/lib/utils.js line 10,
`^(?:[0-9]{1,3}\.){3}[0-9]{1,3}$`: four runs of one to three decimal digits
separated by dots. -/
def isIPv4 (host : String) : Bool :=
  let parts := splitOnChar '.' host.toList
  parts.length = 4 &&
    parts.all (fun p => 1 ≤ p.length && p.length ≤ 3 && p.all Char.isDigit)

/-- src/lib/utils.js lines 8-15, `parseAor`.  The URI has already been parsed
by the external `drachtio-srf` library; its `user` part may be absent and its
`host` is a string.  `domainCfg` models `config.get('domain')` when
`config.has('domain')`, otherwise `none`.  When the host is a literal IPv4
address and no domain override is configured, the source leaves `domain`
bound to the regex match array, whose template interpolation stringifies back
to the full (anchored, group-free) match, i.e. the host itself. -/
def parseAor (user : Option String) (host : String) (domainCfg : Option String) : String :=
  let userPart := if jsTruthy user then jsShow user else "undefined"
  let domain :=
    match isIPv4 host, domainCfg with
    | true, some d => d
    | true, none => host
    | false, _ => host
  userPart ++ "@" ++ domain

/-! ## Version tags (src/lib/utils.js `generateETag`) and their scores

`generateETag` delegates to the external `short-uuid` library instantiated
with the custom alphabet "123456789" (src/lib/utils.js line 3).  Modelled
from the spec: the library (an external collaborator, not part of src/)
translates a random 128-bit v4 UUID into the given 9-character alphabet,
padded to the consistent length ⌈log₉ 2¹²⁸⌉ = 41.  A possible tag is
therefore any 41-character string over the digits 1..9. -/

/-- A character of the `short-uuid` alphabet "123456789". -/
def etagChar (c : Char) : Bool := '1' ≤ c && c ≤ '9'

/-- The possible outputs of `generateETag` (see section comment above). -/
def validETag (s : String) : Prop :=
  s.length = 41 ∧ s.toList.all etagChar = true

instance (s : String) : Decidable (validETag s) := by
  unfold validETag; infer_instance

/-- Bit length of a natural number, with structural fuel (inputs in this
development are far below `2 ^ 200`). -/
def bitsAux : Nat → Nat → Nat
  | 0, _ => 0
  | fuel + 1, n => if n = 0 then 0 else bitsAux fuel (n / 2) + 1

/-- Bit length of a natural number below `2 ^ 200`. -/
def bitlen (n : Nat) : Nat := bitsAux 200 n

/-- The value of an IEEE-754 binary64 number nearest to the natural number
`n` (round to nearest, ties to even), for `n` far below the double overflow
threshold.  A JS `Number`, hence the result of `parseInt`, is such a double:
integers of more than 53 significant bits are rounded. -/
def roundDouble (n : Nat) : Nat :=
  if n < 2 ^ 53 then n
  else
    let k := bitlen n - 53
    let q := n / 2 ^ k
    let r := n % 2 ^ k
    let half := 2 ^ (k - 1)
    let q2 := if r < half then q else if half < r then q + 1 else if q % 2 = 0 then q else q + 1
    q2 * 2 ^ k

/-- The exact decimal value of a digit string (what the spec calls the tag's
"full numeric value"). -/
def decValue (s : String) : Nat := digitsVal s.toList

/-- The score that `addEventState` (src/unnamed/part_001 line 195) stores in
the `event_zset` index for a tag: the JS number `parseInt(etag)`, i.e. the
double rounding of the parsed decimal value; `none` models `NaN`. -/
def scoreOf (etag : String) : Option Nat := (jsParseInt etag).map roundDouble

/-! ## The redis store

Association-list model of the redis keyspace: hashes (HMSET/HGETALL/DEL),
sets (SADD/SREM/SMEMBERS), plain string keys (SET/GET/DEL), the single
sorted set `event_zset` (ZADD/ZREM/ZRANGEBYSCORE -inf +inf) and per-key TTLs
(EXPIRE).  An absent hash reads as `null` (so does an emptied one, which
redis deletes); `hgetall … = none` is exactly the program's notion of an
expired record. -/

/-- A redis hash: field/value pairs. -/
abbrev HashObj := List (String × String)

/-- First-match association lookup (redis keys are unique; `aset` keeps them
so). -/
def aget {α : Type} (m : List (String × α)) (k : String) : Option α :=
  match m with
  | [] => none
  | p :: rest => if p.1 = k then some p.2 else aget rest k

/-- Replace-or-append association update. -/
def aset {α : Type} (m : List (String × α)) (k : String) (v : α) : List (String × α) :=
  m.filter (fun p => !(p.1 == k)) ++ [(k, v)]

/-- Remove a key from an association list. -/
def adel {α : Type} (m : List (String × α)) (k : String) : List (String × α) :=
  m.filter (fun p => !(p.1 == k))

structure Store where
  hashes : List (String × HashObj) := []
  sets : List (String × List String) := []
  strs : List (String × String) := []
  zset : List (String × Option Nat) := []
  ttls : List (String × Nat) := []
deriving DecidableEq

/-- HGETALL: `none` models the `null` that node_redis returns for an absent
key. -/
def hgetall (st : Store) (k : String) : Option HashObj := aget st.hashes k

/-- HMSET: sets the given fields, keeping any other existing fields. -/
def hmset (st : Store) (k : String) (fields : HashObj) : Store :=
  let old := (aget st.hashes k).getD []
  let merged := fields ++ old.filter (fun p => (aget fields p.1).isNone)
  { st with hashes := aset st.hashes k merged }

/-- DEL: removes the key whatever its type. -/
def redisDel (st : Store) (k : String) : Store :=
  { st with hashes := adel st.hashes k, sets := adel st.sets k,
            strs := adel st.strs k, ttls := adel st.ttls k }

/-- SMEMBERS of an absent key is the empty list. -/
def smembers (st : Store) (k : String) : List String := (aget st.sets k).getD []

/-- SADD of a single member. -/
def sadd (st : Store) (k m : String) : Store :=
  let cur := smembers st k
  { st with sets := aset st.sets k (if m ∈ cur then cur else cur ++ [m]) }

/-- SREM of a single member; redis deletes a set key that becomes empty. -/
def srem (st : Store) (k m : String) : Store :=
  match aget st.sets k with
  | none => st
  | some cur =>
    let cur2 := cur.filter (fun x => !(x == m))
    { st with sets := if cur2.isEmpty then adel st.sets k else aset st.sets k cur2 }

/-- GET of a plain string key. -/
def sget (st : Store) (k : String) : Option String := aget st.strs k

/-- SET of a plain string key. -/
def sset (st : Store) (k v : String) : Store := { st with strs := aset st.strs k v }

/-- ZADD into the single sorted index (updates the score of an existing
member). -/
def zadd (st : Store) (score : Option Nat) (member : String) : Store :=
  { st with zset := st.zset.filter (fun p => !(p.1 == member)) ++ [(member, score)] }

/-- ZREM of a member. -/
def zremAll (st : Store) (member : String) : Store :=
  { st with zset := st.zset.filter (fun p => !(p.1 == member)) }

/-- ZRANGEBYSCORE -inf +inf: every member of the index. -/
def zrangeAll (st : Store) : List String := st.zset.map (fun p => p.1)

/-- EXPIRE with a possibly-undefined expiry (the engine sometimes passes
`req.expiry`, which may be `undefined`; the runs settled below never reach
EXPIRE with `none`). -/
def expireOp (st : Store) (k : String) (e : Option Nat) : Store :=
  match e with
  | some n => { st with ttls := aset st.ttls k n }
  | none => st

/-! ## `purgeExpired` (src/unnamed/part_001 lines 270-290) -/

/-- The `for (const aor of arr)` loop body of `purgeExpired`: members whose
backing record has disappeared are removed from the index and counted. -/
def purgeLoop (st : Store) (n : Nat) : List String → Store × Nat
  | [] => (st, n)
  | m :: rest =>
    match hgetall st m with
    | none => purgeLoop (zremAll st m) (n + 1) rest
    | some _ => purgeLoop st n rest

/-- src/unnamed/part_001 lines 270-290: scan the whole sorted index, drop
every entry whose backing record is gone, return the number removed. -/
def purgeExpired (st : Store) : Store × Nat := purgeLoop st 0 (zrangeAll st)

/-! ## Event header parsing and configured defaults (src/lib/utils.js) -/

structure EventHdr where
  event : String
  id : Option String := none
deriving DecidableEq

/-- Scan for the first occurrence of the three characters `id=` and return
what follows (the unanchored regex `/id=([^//s;]*)/` of src/lib/utils.js
line 30 matched against the text after the last semicolon). -/
def afterIdEq : List Char → Option (List Char)
  | [] => none
  | 'i' :: 'd' :: '=' :: rest => some rest
  | _ :: rest => afterIdEq rest

/-- The capture group `([^//s;]*)` of the id regex: the character class
(written with a doubled slash in the source, where `\s` was evidently
intended) excludes exactly the characters `/`, `s` and `;`. -/
def extractId (cs : List Char) : Option String :=
  match afterIdEq cs with
  | none => none
  | some rest =>
    some (String.mk (rest.takeWhile (fun c => !(c == '/') && !(c == 's') && !(c == ';'))))

/-- Rejoin split parts with the separator (the inverse of `splitOnChar` on
all parts but the last, used to recover the text before the last
semicolon). -/
def joinSep (sep : Char) : List (List Char) → List Char
  | [] => []
  | [x] => x
  | x :: y :: t => x ++ sep :: joinSep sep (y :: t)

/-- JS `String.prototype.trim`: strip whitespace from both ends. -/
def trimChars (cs : List Char) : List Char :=
  ((cs.dropWhile Char.isWhitespace).reverse.dropWhile Char.isWhitespace).reverse

/-- src/lib/utils.js lines 21-36, `parseEventHeader`: the greedy anchored
regex `/^(.*);(.*)$/` splits the header at its last semicolon; with no
semicolon the whole header is the event type.  After a split, the event part
is trimmed and an id is extracted from the remainder. -/
def parseEventHeader (s : String) : EventHdr :=
  let parts := splitOnChar ';' s.toList
  match parts with
  | [] => { event := s }
  | [_] => { event := s }
  | _ =>
    let before := joinSep ';' parts.dropLast
    let after := (parts.getLast?).getD []
    { event := String.mk (trimChars before), id := extractId after }

/-- `config.get('methods.subscribe.expire.default')`, when present: a map
from event-package name to its configured `expires` value. -/
abbrev ExpireCfg := Option (List (String × Nat))

/-- src/lib/utils.js lines 38-43: the configured per-package default expiry,
with a 3600-second fallback when the config key is absent or the package has
no entry. -/
def getDefaultSubscriptionExpiry (pkg : String) (cfg : ExpireCfg) : Nat :=
  match cfg with
  | none => 3600
  | some entries =>
    match aget entries pkg with
    | none => 3600
    | some e => e

/-! ## Engine state

One record collects everything the engine can observe or mutate: the redis
store, the module-level `dialogs` Map of src/lib/subscribe.js line 14, the
NOTIFY requests issued, the explicit `res.send` responses, and timer
bookkeeping (armed `setTimeout` handles with their durations, cancelled
handles).  Timer handles are numbered by `nextTimer`. -/

/-- A duck-typed JS object carried around as "the subscription": the
validated `req.event` of src/lib/subscribe.js line 111 populates the first
six fields; the dialog package's `subscriptionData`
(src/lib/events/packages/dialog.js line 79) populates the last five.  A
`none` field is an absent/undefined property. -/
structure SubRec where
  subscriber : Option String := none
  resource : Option String := none
  eventType : Option String := none
  id : Option String := none
  accept : Option String := none
  callId : Option String := none
  aor : Option String := none
  dialogId : Option String := none
  count : Option String := none
  etag : Option String := none
  notifyType : Option String := none
deriving DecidableEq

/-- Serialization of a present field for HMSET. -/
def optField (k : String) (v : Option String) : HashObj :=
  match v with
  | some s => [(k, s)]
  | none => []

/-- HMSET serialization of a subscription object: only its present (own)
properties become hash fields. -/
def hashOfSubRec (o : SubRec) : HashObj :=
  optField "subscriber" o.subscriber ++ optField "resource" o.resource ++
  optField "eventType" o.eventType ++ optField "id" o.id ++
  optField "accept" o.accept ++ optField "callId" o.callId ++
  optField "aor" o.aor ++ optField "dialogId" o.dialogId ++
  optField "count" o.count ++ optField "etag" o.etag ++
  optField "notifyType" o.notifyType

/-- The slice of a drachtio-srf dialog object the engine reads: `dlg.id`,
`dlg.sip.callId`, `dlg.sip.remoteTag`. -/
structure Dlg where
  id : String
  sipCallId : String := ""
  sipRemoteTag : String := ""
deriving DecidableEq

/-- One element of a dialog's timer list: `{subscription, timer}`
(src/lib/subscribe.js line 139).  The `subscription` may be the JS value
`undefined` (`none`) because `initial` forwards whatever `addSubscription`
returned, even on a swallowed store failure. -/
structure Entry where
  sub : Option SubRec
  timer : Nat
deriving DecidableEq

/-- The module-level `dialogs` Map (src/lib/subscribe.js line 14), keyed by
dialog id. -/
abbrev TimerMap := List (String × List Entry)

/-- An outbound NOTIFY request: the dialog (or stack dialog id) it is sent
on, its headers and body; `ok` records whether the transport send succeeded
(fan-out failure injection for the channel listener). -/
structure Notify where
  dlgId : String
  callId : Option String := none
  subState : Option String := none
  eventType : Option String := none
  contentType : Option String := none
  body : Option String := none
  ok : Bool := true
deriving DecidableEq

/-- An explicit `res.send` by the engine (status and optional Expires
header). -/
structure Resp where
  status : Nat
  expires : Option Nat := none
deriving DecidableEq

structure SA where
  store : Store := {}
  dialogs : TimerMap := []
  notifies : List Notify := []
  responses : List Resp := []
  armed : List (Nat × Option Nat) := []
  cancelled : List Nat := []
  nextTimer : Nat := 0
deriving DecidableEq

/-! ## Timer map operations (src/lib/subscribe.js lines 135-152) -/

/-- src/lib/subscribe.js lines 135-141: arm a `setTimeout` for `expiry`
seconds (a fresh handle; its firing is modelled by `expireSubscriptionCb`)
and push `{subscription, timer}` onto the dialog's list. -/
def startSubscriptionTimer (st : SA) (dlgId : String) (sub : Option SubRec) (expiry : Option Nat) : SA :=
  let t := st.nextTimer
  let subs := (aget st.dialogs dlgId).getD []
  { st with dialogs := aset st.dialogs dlgId (subs ++ [⟨sub, t⟩]),
            armed := st.armed ++ [(t, expiry)], nextTimer := t + 1 }

/-- How a call to `clearSubscriptionTimer` can throw: its own
`assert(Array.isArray(arr) && arr.length === 1)` failing, or a `TypeError`
from reading `.eventType` of `undefined` inside the `_.remove` predicate. -/
inductive ClearErr
  | assertFail
  | typeError
deriving DecidableEq

/-- src/lib/subscribe.js lines 143-152.  The source function's third
parameter is used only as `dlg.id` (the Map lookup key, here `lookupId`) and
its fourth only as `subscription.eventType` (the `_.remove` match value,
here `matchV`); call sites pass shifted argument lists, so those JS values
are supplied directly.  `matchV = none` models an `undefined` fourth
argument, whose property access throws inside the predicate; `some v` models
any value whose `.eventType` reads as `v` (an object, or `true`, whose
property access yields `undefined` = `some none`).  On an assert failure the
map is left as-is: with no matching element `_.remove` mutated nothing (the
two-match case, where lodash would already have spliced, is unreachable
under the one-timer-per-event-type invariant). -/
def clearSubscriptionTimer (st : SA) (lookupId : String) (matchV : Option (Option String)) (andCancel : Bool) : Except ClearErr SA :=
  match aget st.dialogs lookupId with
  | none => Except.error ClearErr.assertFail
  | some subs =>
    if subs.isEmpty then Except.error ClearErr.assertFail
    else if subs.any (fun e => e.sub.isNone) then Except.error ClearErr.typeError
    else
      match matchV with
      | none => Except.error ClearErr.typeError
      | some et =>
        let removed := subs.filter (fun e => e.sub.map SubRec.eventType == some et)
        let kept := subs.filter (fun e => !(e.sub.map SubRec.eventType == some et))
        match removed with
        | [e] =>
          let st1 := if andCancel then { st with cancelled := st.cancelled ++ [e.timer] } else st
          Except.ok { st1 with dialogs := if kept.isEmpty then adel st1.dialogs lookupId
                                          else aset st1.dialogs lookupId kept }
        | _ => Except.error ClearErr.assertFail

/-- The JS value `entry.subscription.eventType` (undefined subscription has
no event type at all). -/
def entryET (e : Entry) : Option (Option String) := e.sub.map SubRec.eventType

/-- The timer-map invariant of claim C8: every stored list is non-empty and
holds at most one pair per event type. -/
def timerMapInv (m : TimerMap) : Prop :=
  ∀ p ∈ m, p.2 ≠ [] ∧ (p.2.map entryET).Nodup

instance (m : TimerMap) : Decidable (timerMapInv m) := by
  unfold timerMapInv; infer_instance

/-! ## Event package registry and the dialog package -/

/-- Modelled from the spec: the Event Package Registry (`lib/events/index.js`,
required at src/unnamed/part_001 line 36 but itself not under src/) "loads
one handler per supported event type"; the packages folder holds only the
dialog package, so exactly the event type "dialog" has a registered
handler. -/
def eventPackages : List String := ["dialog"]

/-- The truthiness test `this.eventPackages[eventType]`
(src/unnamed/part_001 lines 203, 352, 382): indexing with the JS value
`undefined` reads the absent property named "undefined". -/
def pkgHas (et : Option String) : Bool :=
  match et with
  | some s => eventPackages.contains s
  | none => false

/-- The fields of a dialog-info object fed to `makeXmlContent`: either the
destructured fields of a dialog-info hash, or the fields of an incoming
channel message. -/
structure DInfo where
  aor : Option String := none
  id : Option String := none
  callId : Option String := none
  localTag : Option String := none
  remoteTag : Option String := none
  direction : Option String := none
  state : Option String := none
deriving DecidableEq

/-- Destructuring a dialog-info hash (or `null`, which `dialogInfo || {}`
turns into an empty object). -/
def dinfoOfHash (o : Option HashObj) : DInfo :=
  match o with
  | none => {}
  | some h =>
    { aor := aget h "aor", id := aget h "id", callId := aget h "callId",
      localTag := aget h "localTag", remoteTag := aget h "remoteTag",
      direction := aget h "direction", state := aget h "state" }

/-- src/lib/events/packages/dialog.js lines 207-243, `makeXmlContent`,
transcribed template by template (including each line's trailing space).
The `version` attribute interpolates `subscriptionData.count++`: the
post-increment yields the old numeric value of the stored counter string, and
the in-place increment is never persisted. -/
def makeXmlContent (subscriptionData : HashObj) (dialogInfo : DInfo) : String :=
  let entity := jsShow (if jsTruthy dialogInfo.aor then dialogInfo.aor else aget subscriptionData "aor")
  let dialog :=
    if jsTruthy dialogInfo.id then
      if jsTruthy dialogInfo.remoteTag && jsTruthy dialogInfo.localTag then
        "<dialog id=\"" ++ jsShow dialogInfo.id ++ "\" call-id=\"" ++ jsShow dialogInfo.callId ++
        "\" local-tag=\"" ++ jsShow dialogInfo.localTag ++ "\" remote-tag=\"" ++ jsShow dialogInfo.remoteTag ++
        "\" direction=\"" ++ jsShow dialogInfo.direction ++ "\"><state>" ++ jsShow dialogInfo.state ++ "</state></dialog>"
      else if jsTruthy dialogInfo.remoteTag then
        "<dialog id=\"" ++ jsShow dialogInfo.id ++ "\" call-id=\"" ++ jsShow dialogInfo.callId ++
        "\" remote-tag=\"" ++ jsShow dialogInfo.remoteTag ++
        "\" direction=\"" ++ jsShow dialogInfo.direction ++ "\"><state>" ++ jsShow dialogInfo.state ++ "</state></dialog>"
      else if jsTruthy dialogInfo.localTag then
        "<dialog id=\"" ++ jsShow dialogInfo.id ++ "\" call-id=\"" ++ jsShow dialogInfo.callId ++
        "\" local-tag=\"" ++ jsShow dialogInfo.localTag ++
        "\" direction=\"" ++ jsShow dialogInfo.direction ++ "\"><state>" ++ jsShow dialogInfo.state ++ "</state></dialog>"
      else
        "<dialog id=\"" ++ jsShow dialogInfo.id ++ "\" call-id=\"" ++ jsShow dialogInfo.callId ++
        "\" direction=\"" ++ jsShow dialogInfo.direction ++ "\"><state>" ++ jsShow dialogInfo.state ++ "</state></dialog>"
    else ""
  let version := jsToNumberStr (aget subscriptionData "count")
  "<?xml version=\"1.0\"?>\n<dialog-info xmlns=\"urn:ietf:params:xml:ns:dialog-info\" \n   version=\"" ++
  version ++ "\" \n   state=\"full\" \n   entity=\"" ++ entity ++ "\">\n   " ++ dialog ++ "\n</dialog-info>\n\n"

/-- What `getEventState` resolves to (generic hash fields, or the dialog
package's rendered state). -/
structure EventState where
  aor : Option String := none
  etag : Option String := none
  eventType : Option String := none
  contentType : Option String := none
  content : Option String := none
deriving DecidableEq

/-- src/lib/events/packages/dialog.js lines 41-66: read the resource's
dialog-info record and the caller's subscription record; a missing
subscription record is logged and yields `undefined`. -/
def dialogGetEventState (st : SA) (subscriber resource : Option String) : Option EventState :=
  let key := makeDialogInfoKey (jsShow resource)
  let subKey := makeSubscriptionName (jsShow subscriber) (jsShow resource)
  let dialogInfo := hgetall st.store key
  match hgetall st.store subKey with
  | none => none
  | some sd =>
    some { aor := resource, etag := aget sd "etag", eventType := some "dialog",
           contentType := some "application/dialog-info+xml",
           content := some (makeXmlContent sd (dinfoOfHash dialogInfo)) }

/-- src/unnamed/part_001 lines 201-213, `getEventState`: delegate to a
registered package handler, else read the generic event-state hash. -/
def getEventState (st : SA) (subscriber aor eventType : Option String) : Option EventState :=
  if pkgHas eventType then dialogGetEventState st subscriber aor
  else
    (hgetall st.store (makeEventStateKey (jsShow aor) (jsShow eventType))).map
      (fun h => { aor := aget h "aor", etag := aget h "etag", eventType := aget h "eventType",
                  contentType := aget h "contentType", content := aget h "content" })

/-- src/lib/subscribe.js lines 74-93, `notify`: fetch current event state
for the subscription object's (possibly undefined) fields and send one
NOTIFY on the dialog; a body and Content-Type are attached only when state
exists and the subscription state is not "terminated". -/
def notifyFn (st : SA) (sub : SubRec) (dlg : Dlg) (subscriptionState : String) : SA :=
  let state := getEventState st sub.subscriber sub.resource sub.eventType
  let base : Notify := { dlgId := dlg.id, callId := sub.callId,
                         subState := some subscriptionState, eventType := sub.eventType }
  let n :=
    match state with
    | some es =>
      if subscriptionState ≠ "terminated" then
        { base with contentType := es.contentType, body := es.content }
      else base
    | none => base
  { st with notifies := st.notifies ++ [n] }

/-! ## Subscription persistence (src/unnamed/part_001 and dialog.js) -/

/-- Failure injection for a run: the external transport's dialog
establishment (`srf.createUAS`) and the store's write commands can fail. -/
structure Flags where
  createUASFails : Bool := false
  saddFails : Bool := false
  hmsetFails : Bool := false
deriving DecidableEq

/-- The fresh opaque values a run draws: `generateETag()` and
`translator.new()`. -/
structure Fresh where
  etag : String := "1"
  subId : String := "s"
deriving DecidableEq

/-- How `db.addSubscription` can reject: a `TypeError` from reading
`obj.eventType` of `undefined`, or a store error from the generic path's
atomic MULTI write. -/
inductive JsErr
  | typeError
  | storeError
deriving DecidableEq

/-- src/lib/events/packages/dialog.js lines 68-97, `dialogAddSubscription`:
fire-and-forget SADD of the subscription name into the watched-resource set
(its own failure only logged), then the subscription record written with TTL
`expiry` in one MULTI.  A failing record write is caught and logged inside
the handler, which then returns `undefined` — it never rejects. -/
def dialogAddSubscription (st : SA) (dlg : Dlg) (obj : SubRec) (expiry : Option Nat) (fl : Flags) (fr : Fresh) : SA × Option SubRec :=
  let subscriptionName := makeSubscriptionName (jsShow obj.subscriber) (jsShow obj.resource)
  let key := makeSubscribedResourceKey (jsShow obj.resource)
  let st1 := if fl.saddFails then st else { st with store := sadd st.store key subscriptionName }
  let subscriptionData : SubRec :=
    { aor := obj.resource,
      dialogId := some (dlg.sipCallId ++ ";from-tag=" ++ dlg.sipRemoteTag),
      count := some "0", etag := some fr.etag, id := some fr.subId,
      notifyType := some "sip" }
  if fl.hmsetFails then (st1, none)
  else
    ({ st1 with store := expireOp (hmset st1.store subscriptionName (hashOfSubRec subscriptionData))
                                  subscriptionName expiry },
     some subscriptionData)

/-- src/unnamed/part_001 lines 349-378, `addSubscription`: reading
`obj.eventType` throws when `obj` is `undefined`; with a registered package
handler the handler fully owns persistence (the `obj.override = true`
mutation is unobservable here); otherwise the record, the dialog-correlation
pointer and (when an id was supplied) the id pointer are written in one
atomic MULTI sharing the TTL, whose failure rejects with nothing written. -/
def dbAddSubscription (st : SA) (dlg : Dlg) (obj : Option SubRec) (expiry : Option Nat) (fl : Flags) (fr : Fresh) : Except JsErr (SA × Option SubRec) :=
  match obj with
  | none => Except.error JsErr.typeError
  | some o =>
    if pkgHas o.eventType then
      Except.ok (dialogAddSubscription st dlg o expiry fl fr)
    else
      if fl.hmsetFails then Except.error JsErr.storeError
      else
        let key := makeSubStateKey fr.subId
        let keyDialog := makeSubStateKeyDialog (jsShow o.subscriber) (jsShow o.resource)
                           (jsShow o.eventType) (jsShow o.callId)
        let store1 := expireOp (expireOp (sset (hmset st.store key (hashOfSubRec o)) keyDialog key)
                                         key expiry) keyDialog expiry
        let st1 := { st with store := store1 }
        let st2 :=
          if jsTruthy o.id then
            let keyId := makeSubStateKeyId (jsShow o.subscriber) (jsShow o.resource)
                           (jsShow o.eventType) (jsShow o.id)
            { st1 with store := expireOp (sset st1.store keyId key) keyId expiry }
          else st1
        Except.ok (st2, some o)

/-- src/lib/events/packages/dialog.js lines 99-112,
`dialogRemoveSubscription`: SREM the name from the watched-resource set and
DEL the record; errors are caught and logged. -/
def dialogRemoveSubscription (st : SA) (obj : SubRec) : SA :=
  let subscriptionName := makeSubscriptionName (jsShow obj.subscriber) (jsShow obj.resource)
  let key := makeSubscribedResourceKey (jsShow obj.resource)
  { st with store := redisDel (srem st.store key subscriptionName) subscriptionName }

/-- src/unnamed/part_001 lines 380-402, `removeSubscription`: with a
registered package handler for `obj.eventType`, delegate; otherwise resolve
the dialog-correlation pointer and DEL pointer, record, and (if an id is
present) id pointer.  A `null` pointer lookup makes the second DEL a no-op
(node_redis stringifies the argument; no real key is touched either way). -/
def dbRemoveSubscription (st : SA) (obj : SubRec) : SA :=
  if pkgHas obj.eventType then dialogRemoveSubscription st obj
  else
    let keyDialog := makeSubStateKeyDialog (jsShow obj.subscriber) (jsShow obj.resource)
                       (jsShow obj.eventType) (jsShow obj.callId)
    let value := sget st.store keyDialog
    let st1 := { st with store := redisDel st.store keyDialog }
    let st2 :=
      match value with
      | some v => { st1 with store := redisDel st1.store v }
      | none => st1
    if jsTruthy obj.id then
      { st2 with store := redisDel st2.store (makeSubStateKeyId (jsShow obj.subscriber)
                            (jsShow obj.resource) (jsShow obj.eventType) (jsShow obj.id)) }
    else st2

/-! ## The subscription lifecycle engine (src/lib/subscribe.js) -/

/-- The headers of an inbound out-of-dialog SUBSCRIBE that `validate`
consumes, with the From/To URIs already parsed by the transport library. -/
structure SipReq where
  eventHdr : Option String := none
  expiresHdr : Option String := none
  acceptHdr : Option String := none
  callId : Option String := none
  fromUser : Option String := none
  fromHost : String := ""
  toUser : Option String := none
  toHost : String := ""
deriving DecidableEq

/-- The successfully validated request: the `req.event` object and
`req.expiry` that `validate` attaches (src/lib/subscribe.js lines 111-123). -/
structure Validated where
  event : SubRec
  expiry : Option Nat
deriving DecidableEq

/-- The expiry expression of src/lib/subscribe.js line 123: the parsed
Expires header when present, else the configured default for the parsed
event type; `none` is the `NaN` of a non-numeric header. -/
def computeExpiry (req : SipReq) (event : String) (cfg : ExpireCfg) : Option Nat :=
  match req.expiresHdr with
  | some s => jsParseInt s
  | none => some (getDefaultSubscriptionExpiry event cfg)

/-- src/lib/subscribe.js lines 96-133, `validate`: 400 without an Event
header, 489 for an unsupported event type, then the `req.event` object is
built (`_.omitBy(…, _.isNil)` is the identity on this Option-field
representation) and the expiry computed; a computed expiry of exactly zero
answers 200 and stops.  `sup` models the `SUPPORTED_EVENTS` environment
list. -/
def validate (sup : List String) (cfg : ExpireCfg) (domainCfg : Option String) (st : SA) (req : SipReq) : SA × Option Validated :=
  match req.eventHdr with
  | none => ({ st with responses := st.responses ++ [{ status := 400 }] }, none)
  | some hdr =>
    let eh := parseEventHeader hdr
    if eh.event ∈ sup then
      let ev : SubRec :=
        { subscriber := some (parseAor req.fromUser req.fromHost domainCfg),
          resource := some (parseAor req.toUser req.toHost domainCfg),
          eventType := some eh.event, id := eh.id, accept := req.acceptHdr,
          callId := req.callId }
      let expiry := computeExpiry req eh.event cfg
      if expiry = some 0 then
        ({ st with responses := st.responses ++ [{ status := 200 }] }, none)
      else
        (st, some { event := ev, expiry := expiry })
    else
      ({ st with responses := st.responses ++ [{ status := 489 }] }, none)

/-- src/lib/subscribe.js lines 25-43, `initial`: establish the UAS dialog,
persist via `db.addSubscription(uas, req.event, req.expiry)`, arm the expiry
timer and send one "active" NOTIFY built from `req.event`; any rejection up
to and including `addSubscription` is caught and answered 480.  Note the
dialog-package path never rejects: on its swallowed store failure the timer
is still armed, with an `undefined` subscription in the timer map. -/
def initial (st : SA) (v : Validated) (dlg : Dlg) (fl : Flags) (fr : Fresh) : SA :=
  if fl.createUASFails then { st with responses := st.responses ++ [{ status := 480 }] }
  else
    match dbAddSubscription st dlg (some v.event) v.expiry fl fr with
    | Except.error _ => { st with responses := st.responses ++ [{ status := 480 }] }
    | Except.ok (st1, sub) =>
      let st2 := startSubscriptionTimer st1 dlg.id sub v.expiry
      notifyFn st2 v.event dlg "active"

/-- src/lib/subscribe.js lines 16-23: the exported request handler —
`validate`, and on success `initial`. -/
def handleSubscribe (sup : List String) (cfg : ExpireCfg) (domainCfg : Option String) (st : SA) (req : SipReq) (dlg : Dlg) (fl : Flags) (fr : Fresh) : SA :=
  match validate sup cfg domainCfg st req with
  | (st1, none) => st1
  | (st1, some v) => initial st1 v dlg fl fr

/-- An in-dialog SUBSCRIBE as the refresh handler receives it: a fresh
request object on which `validate` never ran, so `req.event` and
`req.expiry` are `undefined` (`none`) — only `validate`
(src/lib/subscribe.js lines 111, 123) ever sets them, and only on the
initial out-of-dialog request. -/
structure InDialogReq where
  eventHdr : Option String := none
  expiresHdr : Option String := none
  reqEvent : Option SubRec := none
  reqExpiry : Option Nat := none
deriving DecidableEq

/-- src/lib/subscribe.js lines 45-65, `refresh`: compute the granted expiry
locally (the `|| 3600` folds both 0 and NaN to 3600), clear and cancel the
old timer (correct argument list at this call site: lookup by `dlg.id`,
match by `subscription.eventType`), delete the old subscription, then call
`db.addSubscription(dlg, req.event, req.expiry)` — the raw request fields,
not the locally computed values.  Any rejection inside the `try` is caught
and answered 480, keeping whatever state changes already happened.  (On the
success path, `startSubscriptionTimer(dlg, db, dlg, subscription, expiry)`
shifts `logger := dlg`, which is harmless: the timer-map key is still the
third argument's `.id`.  A refresh whose `addSubscription` returned
`undefined` would throw in `notify` after the 202 was already sent.) -/
def refresh (cfg : ExpireCfg) (st : SA) (req : InDialogReq) (dlg : Dlg) (subscription : SubRec) (fl : Flags) (fr : Fresh) : SA :=
  let expiry :=
    match (match req.expiresHdr with
           | some s => jsParseInt s
           | none => some (match req.eventHdr with
                           | some e => getDefaultSubscriptionExpiry e cfg
                           | none => 3600)) with
    | some 0 => 3600
    | none => 3600
    | some n => n
  match clearSubscriptionTimer st dlg.id (some subscription.eventType) true with
  | Except.error _ => { st with responses := st.responses ++ [{ status := 480 }] }
  | Except.ok st1 =>
    let st2 := dbRemoveSubscription st1 subscription
    match dbAddSubscription st2 dlg req.reqEvent req.reqExpiry fl fr with
    | Except.error _ => { st2 with responses := st2.responses ++ [{ status := 480 }] }
    | Except.ok (st3, sub2) =>
      let st4 := startSubscriptionTimer st3 dlg.id sub2 (some expiry)
      let st5 := { st4 with responses := st4.responses ++ [{ status := 202, expires := some expiry }] }
      match sub2 with
      | some s2 => notifyFn st5 s2 dlg "active"
      | none => { st5 with responses := st5.responses ++ [{ status := 480 }] }

/-- src/lib/subscribe.js lines 67-72, `remove` (the unsubscribe handler):
send the terminated NOTIFY, delete the subscription, then
`clearSubscriptionTimer(dlg, db, subscription, true)` — a shifted argument
list whose third argument is the subscription object (so the Map lookup key
is `subscription.id`), whose fourth is `true` (whose `.eventType` reads as
`undefined` without throwing) and whose `andCancel` is `undefined` (falsy).
The handler has no try/catch: a thrown `ClearErr` escapes as an unhandled
rejection, returned here beside the state reached at the throw. -/
def removeHandler (st : SA) (dlg : Dlg) (subscription : SubRec) : SA × Option ClearErr :=
  let st1 := notifyFn st subscription dlg "terminated"
  let st2 := dbRemoveSubscription st1 subscription
  match clearSubscriptionTimer st2 (jsShow subscription.id) (some none) false with
  | Except.ok st3 => (st3, none)
  | Except.error e => (st2, some e)

/-- src/lib/subscribe.js lines 154-162, `_expireSubscription` (the
`setTimeout` callback): send the terminated NOTIFY (store removal is left
to redis TTL by design), then `clearSubscriptionTimer(logger, dlg,
subscription)` — a three-argument call whose `dlg` parameter is the
subscription object (lookup key `subscription.id`) and whose `subscription`
parameter is `undefined` (the predicate's right side would throw). -/
def expireSubscriptionCb (st : SA) (dlg : Dlg) (subscription : SubRec) : SA × Option ClearErr :=
  let st1 := notifyFn st subscription dlg "terminated"
  match clearSubscriptionTimer st1 (jsShow subscription.id) none false with
  | Except.ok st2 => (st2, none)
  | Except.error e => (st1, some e)

/-! ## The dialog package channel listener (src/lib/events/packages/dialog.js) -/

/-- src/lib/events/packages/dialog.js line 8. -/
def MAX_CALL_LENGTH : Nat := 60 * 60 * 3

/-- The NOTIFY that the channel listener issues toward one watcher
(src/lib/events/packages/dialog.js lines 185-193): an `srf.request`
addressed by the watcher's stored dialog correlation, Subscription-State
"active", dialog-info XML body; `ok` is false when the send failed or drew a
non-success response (which is only logged). -/
def mkDialogNotify (subscriptionData : HashObj) (di : DInfo) (ok : Bool) : Notify :=
  { dlgId := jsShow (aget subscriptionData "dialogId"),
    subState := some "active",
    contentType := some "application/dialog-info+xml",
    body := some (makeXmlContent subscriptionData di),
    ok := ok }

/-- The `for (const subscription of subscriptions)` fan-out loop of
`onMessage` (src/lib/events/packages/dialog.js lines 173-201): a member
whose record has expired is pruned from the watched-resource set without a
NOTIFY; every other member is sent one NOTIFY, and a failure on one member
is caught inside the loop body, never stopping the iteration. -/
def notifyLoop (wkey : String) (di : DInfo) (fails : String → Bool) (st : SA) : List String → SA
  | [] => st
  | m :: rest =>
    let st1 :=
      match hgetall st.store m with
      | none => { st with store := srem st.store wkey m }
      | some sd => { st with notifies := st.notifies ++ [mkDialogNotify sd di (!(fails m))] }
    notifyLoop wkey di fails st1 rest

/-- src/lib/events/packages/dialog.js lines 134-205, `onMessage`: split the
channel message into its seven space-delimited fields (destructuring yields
`undefined` for missing words; the literal token "undef" means an absent
tag), delete the resource's dialog-info record if the state is terminal or
upsert it with the bounded TTL otherwise, then fan out to the watched
set. -/
def onMessage (st : SA) (words : List String) (fails : String → Bool) : SA :=
  let aor := words.get? 0
  let id := words.get? 1
  let callId := words.get? 2
  let lTag := words.get? 3
  let rTag := words.get? 4
  let direction := words.get? 5
  let state := words.get? 6
  let localTag := if lTag == some "undef" then none else lTag
  let remoteTag := if rTag == some "undef" then none else rTag
  let key := makeDialogInfoKey (jsShow aor)
  let st1 :=
    if state ∈ [some "terminated", some "rejected", some "cancelled"] then
      { st with store := redisDel st.store key }
    else
      let dialogInfo : HashObj :=
        [("id", jsShow id), ("direction", jsShow direction),
         ("state", jsShow state), ("callId", jsShow callId)] ++
        (match localTag with
         | some t => [("localTag", t)]
         | none => []) ++
        (match remoteTag with
         | some t => [("remoteTag", t)]
         | none => [])
      { st with store := expireOp (hmset st.store key dialogInfo) key (some MAX_CALL_LENGTH) }
  let wkey := makeSubscribedResourceKey (jsShow aor)
  let members := smembers st1.store wkey
  notifyLoop wkey
    { aor := aor, id := id, callId := callId, localTag := localTag,
      remoteTag := remoteTag, direction := direction, state := state }
    fails st1 members

/-! ## Event-state persistence (src/unnamed/part_001 lines 181-199) -/

/-- src/unnamed/part_001 lines 181-199, `addEventState`: one MULTI writing
the record with TTL and indexing its key in `event_zset` under the score
`parseInt(etag)` — a JS double, modelled by `scoreOf`.  The fresh
`generateETag()` output is passed in as `etag`. -/
def addEventState (st : Store) (aor : String) (expiry : Nat) (eventType contentType content : String) (etag : String) : Store × HashObj :=
  let key := makeEventStateKey aor eventType
  let data := [("aor", aor), ("eventType", eventType), ("etag", etag),
               ("contentType", contentType), ("content", content)]
  (zadd (expireOp (hmset st key data) key (some expiry)) (scoreOf etag) key, data)

/-! ## Association-list and partition helper lemmas -/

theorem aget_adel_self {α : Type} (ls : List (String × α)) (k : String) : aget (adel ls k) k = none := by
  induction ls with
  | nil => rfl
  | cons p t ih =>
    simp only [adel, List.filter_cons] at ih ⊢
    by_cases hp : p.1 = k
    · simp [hp]
      exact ih
    · simp [hp, aget]
      exact ih

theorem aget_aset_self {α : Type} (ls : List (String × α)) (k : String) (v : α) : aget (aset ls k v) k = some v := by
  induction ls with
  | nil => simp [aset, aget]
  | cons p t ih =>
    simp only [aset, List.filter_cons] at ih ⊢
    by_cases hp : p.1 = k
    · simp [hp]
      exact ih
    · simp [hp, aget]
      exact ih

theorem aget_mem {α : Type} {ls : List (String × α)} {k : String} {v : α} (h : aget ls k = some v) : (k, v) ∈ ls := by
  induction ls with
  | nil => simp [aget] at h
  | cons p t ih =>
    rw [aget] at h
    by_cases hp : p.1 = k
    · simp [hp] at h
      have hpv : p = (k, v) := by
        cases p
        simp_all
      rw [← hpv]
      exact List.mem_cons_self _ _
    · simp [hp] at h
      exact List.mem_cons_of_mem _ (ih h)

theorem mem_aset_cases {α : Type} {ls : List (String × α)} {k : String} {v : α} {p : String × α} (h : p ∈ aset ls k v) : p ∈ ls ∨ p = (k, v) := by
  simp only [aset, List.mem_append, List.mem_filter, List.mem_singleton] at h
  rcases h with h | h
  · exact Or.inl h.1
  · exact Or.inr h

theorem mem_adel_sub {α : Type} {ls : List (String × α)} {k : String} {p : String × α} (h : p ∈ adel ls k) : p ∈ ls := by
  simp only [adel, List.mem_filter] at h
  exact h.1

theorem length_filter_partition {α : Type} (p : α → Bool) (l : List α) :
    (l.filter p).length + (l.filter (fun x => !(p x))).length = l.length := by
  induction l with
  | nil => simp
  | cons a t ih => by_cases hp : p a = true <;> simp [List.filter, hp] <;> omega

/-! ## Claim C7: `purgeExpired` -/

theorem purgeLoop_spec (ms : List String) (st : Store) (n : Nat) :
    purgeLoop st n ms =
      ({ st with zset := st.zset.filter (fun p => !(decide (p.1 ∈ ms) && (hgetall st p.1).isNone)) },
       n + ms.countP (fun m => (hgetall st m).isNone)) := by
  induction ms generalizing st n with
  | nil => simp [purgeLoop]
  | cons m rest ih =>
    rw [purgeLoop]
    cases hm : hgetall st m with
    | some h =>
      show purgeLoop st n rest = _
      rw [ih]
      refine Prod.ext ?_ ?_
      · show ({ st with zset := _ } : Store) = { st with zset := _ }
        congr 1
        refine List.filter_congr ?_
        intro p hp
        by_cases hpm : p.1 = m
        · rw [hpm, hm]
          simp
        · simp [List.mem_cons, hpm]
      · simp [List.countP_cons, hm]
    | none =>
      show purgeLoop (zremAll st m) (n + 1) rest = _
      rw [ih]
      refine Prod.ext ?_ ?_
      · show ({ st with zset := List.filter (fun p => !(decide (p.1 ∈ rest) && (hgetall st p.1).isNone)) (List.filter (fun p => !(p.1 == m)) st.zset) } : Store) = { st with zset := List.filter (fun p => !(decide (p.1 ∈ m :: rest) && (hgetall st p.1).isNone)) st.zset }
        congr 1
        rw [List.filter_filter]
        refine List.filter_congr ?_
        intro p hp
        by_cases hpm : p.1 = m
        · rw [hpm, hm]
          simp
        · simp [List.mem_cons, hpm]
      · show n + 1 + List.countP (fun m1 => (hgetall st m1).isNone) rest = _
        simp [List.countP_cons, hm]
        omega

/-- C7: for any store state, `purgeExpired` removes from the sorted index
exactly the entries whose backing record is absent, leaves every entry with
a live backing record (and every other part of the store) untouched, and
returns the count of entries removed. -/
theorem purgeExpired_removes_exactly_stale (st : Store) :
    (purgeExpired st).1 = { st with zset := st.zset.filter (fun p => (hgetall st p.1).isSome) }
    ∧ (purgeExpired st).2 = st.zset.countP (fun p => (hgetall st p.1).isNone) := by
  rw [purgeExpired, purgeLoop_spec]
  constructor
  · show ({ st with zset := _ } : Store) = { st with zset := _ }
    congr 1
    refine List.filter_congr ?_
    intro p hp
    have hmem : p.1 ∈ zrangeAll st := List.mem_map_of_mem _ hp
    simp [hmem]
  · show 0 + List.countP _ (zrangeAll st) = _
    rw [zrangeAll, List.countP_map]
    simp
    rfl

/-! ## Claim C4: store key naming -/

/-- C4 counterexample: the dialog-info key the program writes and reads is
not the specified `dlg-info:<aor>` — the doubled dollar sign in the template
inserts a literal `$` before the AOR. -/
theorem dialog_info_key_mismatch :
    makeDialogInfoKey "alice@example.com" ≠ specDialogInfoKey "alice@example.com" := by
  decide

/-- C4 (amended): every store key builder matches the spec's naming
conventions bit-exact, except the dialog-info key, which is exactly
`dlg-info:$` followed by the AOR. -/
theorem store_key_conventions_amended (aor event subscriber resource id callid opq : String) :
    makeDialogInfoKey aor = "dlg-info:$" ++ aor
    ∧ makeSubscribedResourceKey aor = "watched-aor:" ++ aor
    ∧ makeRegKey aor = "reg:" ++ aor
    ∧ makeEventStateKey aor event = "es:" ++ aor ++ ":" ++ event
    ∧ makeSubStateKey opq = "sub:" ++ opq
    ∧ makeSubStateKeyId subscriber resource event id = "subkeyid:" ++ resource ++ ":" ++ event ++ ":" ++ subscriber ++ ":" ++ id
    ∧ makeSubStateKeyDialog subscriber resource event callid = "subkeydlg:" ++ resource ++ ":" ++ event ++ ":" ++ subscriber ++ ":" ++ callid
    ∧ makeSubscriptionName subscriber resource = "dlg-sub:" ++ subscriber ++ "-" ++ resource
    ∧ ZSET = "event_zset" :=
  ⟨rfl, rfl, rfl, rfl, rfl, rfl, rfl, rfl, rfl⟩

/-! ## Claim C10: `parseAor` with an absent user part -/

/-- C10: for every URI without a user part, `parseAor` returns the literal
string "undefined" joined by `@` to the host — or to the configured domain
override when the host is a literal IPv4 address and an override is
configured — and never fails or emits an empty user part. -/
theorem parseAor_missing_user (host : String) (domainCfg : Option String) :
    (isIPv4 host = false → parseAor none host domainCfg = "undefined@" ++ host)
    ∧ (∀ d, isIPv4 host = true → domainCfg = some d → parseAor none host domainCfg = "undefined@" ++ d)
    ∧ (isIPv4 host = true → domainCfg = none → parseAor none host domainCfg = "undefined@" ++ host) := by
  refine ⟨?_, ?_, ?_⟩
  · intro hip
    simp [parseAor, jsTruthy, hip]
  · intro d hip hcfg
    simp [parseAor, jsTruthy, hip, hcfg]
  · intro hip hcfg
    simp [parseAor, jsTruthy, hip, hcfg]

theorem parseAor_missing_user_witness :
    parseAor none "example.com" none = "undefined@example.com"
    ∧ parseAor none "10.0.0.1" (some "sip.example.com") = "undefined@sip.example.com" :=
  ⟨(parseAor_missing_user "example.com" none).1 (by decide),
   (parseAor_missing_user "10.0.0.1" (some "sip.example.com")).2.1 "sip.example.com" (by decide) rfl⟩

/-! ## Claim C9: version tags and their zset scores -/

set_option maxRecDepth 100000 in
/-- C9 counterexample: a perfectly valid 41-digit tag whose `parseInt`
result — the IEEE double used as the `event_zset` score in `addEventState` —
differs from the tag's exact decimal value, because 41-digit values exceed
the 53-bit double significand. -/
theorem etag_parseInt_truncates :
    validETag "11111111111111111111111111111111111111111"
    ∧ scoreOf "11111111111111111111111111111111111111111" ≠
        some (decValue "11111111111111111111111111111111111111111") := by
  constructor
  · decide
  · decide

theorem etagChar_isDigit {c : Char} (h : etagChar c = true) : c.isDigit = true := by
  simp only [etagChar, Bool.and_eq_true, decide_eq_true_eq] at h
  simp only [Char.isDigit, Bool.and_eq_true, decide_eq_true_eq]
  exact ⟨le_trans (show ('0' : Char) ≤ '1' by decide) h.1, h.2⟩

/-- C9 (amended): every possible `generateETag` output is a non-empty string
of the digits 1 through 9, so `parseInt` consumes the whole tag and never
yields `NaN` — but its value, 41 decimal digits, exceeds `2 ^ 53`, so the
double score may differ from the exact value (see the counterexample). -/
theorem etag_digits_amended (s : String) (h : validETag s) :
    s ≠ "" ∧ s.toList.all etagChar = true ∧ jsParseInt s = some (decValue s) := by
  obtain ⟨hlen, hall⟩ := h
  refine ⟨?_, hall, ?_⟩
  · intro hc
    rw [hc] at hlen
    simp at hlen
  · rw [jsParseInt]
    have htw : s.toList.takeWhile Char.isDigit = s.toList := by
      rw [List.takeWhile_eq_self_iff]
      rw [List.all_eq_true] at hall
      exact fun a ha => etagChar_isDigit (hall a ha)
    have hlen2 : s.toList.length = 41 := hlen
    have hie : s.toList.isEmpty = false := by
      cases hl : s.toList with
      | nil =>
        rw [hl] at hlen2
        simp at hlen2
      | cons a t => rfl
    simp only [htw, hie, Bool.false_eq_true, if_false, decValue]

theorem etag_digits_witness :
    validETag "99999999999999999999999999999999999999999"
    ∧ ("99999999999999999999999999999999999999999" : String) ≠ ""
    ∧ jsParseInt "99999999999999999999999999999999999999999" =
        some (decValue "99999999999999999999999999999999999999999") :=
  ⟨by decide,
   (etag_digits_amended "99999999999999999999999999999999999999999" (by decide)).1,
   (etag_digits_amended "99999999999999999999999999999999999999999" (by decide)).2.2⟩

/-! ## A concrete active dialog-package subscription (used by C1, C2, C3)

The state reached after a successful initial SUBSCRIBE for event "dialog"
from alice@p.io to bob@p.io on UAS dialog "uas1": the package's
`subscriptionData` record is stored under its `dlg-sub:` name, the
watched-resource set holds that name, and one expiry timer (handle 0) is
armed with the subscription in the timer map. -/

def pkgSubEx : SubRec :=
  { aor := some "bob@p.io", dialogId := some "cid1;from-tag=rt1", count := some "0",
    etag := some "33333", id := some "sid1", notifyType := some "sip" }

def subNameEx : String := makeSubscriptionName "alice@p.io" "bob@p.io"

def storeEx : Store :=
  { hashes := [(subNameEx, hashOfSubRec pkgSubEx)],
    sets := [(makeSubscribedResourceKey "bob@p.io", [subNameEx])],
    ttls := [(subNameEx, 3600)] }

def saEx : SA :=
  { store := storeEx, dialogs := [("uas1", [⟨some pkgSubEx, 0⟩])],
    armed := [(0, some 3600)], nextTimer := 1 }

def dlgEx : Dlg := { id := "uas1", sipCallId := "cid1", sipRemoteTag := "rt1" }

/-! ## Claim C1: the in-dialog refresh path -/

/-- C1 (code bug): an in-dialog refresh SUBSCRIBE (Event: dialog,
Expires: 1800) on the active subscription does cancel the old timer and
delete its timer-map entry, but then fails wholesale: the old `dlg-sub:`
record is not deleted (`removeSubscription` takes the generic path because
the package subscription object has no `eventType` and so deletes only
`subkeydlg:undefined:...` keys), and `db.addSubscription(dlg, req.event,
req.expiry)` throws a TypeError because `req.event`/`req.expiry` are only
ever set by `validate` on the initial out-of-dialog request — so the
handler answers 480 and no new record, no new timer, no 202 and no NOTIFY
are produced. -/
theorem refresh_on_active_subscription_fails_480 :
    refresh none saEx { eventHdr := some "dialog", expiresHdr := some "1800" } dlgEx pkgSubEx {}
        { etag := "44444", subId := "sid2" } =
      { store := storeEx, dialogs := [], notifies := [],
        responses := [{ status := 480 }], armed := [(0, some 3600)],
        cancelled := [0], nextTimer := 1 }
    ∧ hgetall storeEx subNameEx = some (hashOfSubRec pkgSubEx) := by
  constructor
  · decide
  · decide

/-! ## Claim C2: termination (unsubscribe and timer expiry) -/

/-- C2 (code bug): terminating the active subscription does send exactly one
terminated NOTIFY with no body, but neither removal happens.  On unsubscribe,
`removeSubscription` takes the generic path (the package subscription object
has no `eventType`), so the `dlg-sub:` record survives; and
`clearSubscriptionTimer(dlg, db, subscription, true)` is called with a
shifted argument list, looks the timer map up by `subscription.id` ("sid1"),
finds nothing, and its own `assert(Array.isArray(arr) && arr.length === 1)`
throws — the timer-map entry survives and the timer is never cancelled.  The
timer-expiry callback fails the same assert for the same reason, leaving its
entry in the map. -/
theorem unsubscribe_termination_leaves_timer_entry :
    removeHandler saEx dlgEx pkgSubEx =
      ({ saEx with notifies := [{ dlgId := "uas1", subState := some "terminated" }] },
       some ClearErr.assertFail)
    ∧ expireSubscriptionCb saEx dlgEx pkgSubEx =
      ({ saEx with notifies := [{ dlgId := "uas1", subState := some "terminated" }] },
       some ClearErr.assertFail)
    ∧ aget (removeHandler saEx dlgEx pkgSubEx).1.dialogs "uas1" = some [⟨some pkgSubEx, 0⟩]
    ∧ hgetall (removeHandler saEx dlgEx pkgSubEx).1.store subNameEx = some (hashOfSubRec pkgSubEx) := by
  refine ⟨?_, ?_, ?_, ?_⟩ <;> decide

/-! ## Claim C3: failures on the initial SUBSCRIBE path -/

def reqEvEx : SubRec :=
  { subscriber := some "alice@p.io", resource := some "bob@p.io",
    eventType := some "dialog", callId := some "cid1" }

/-- C3 counterexample: when the dialog package's store write of the
subscription record fails (the MULTI HMSET rejects), the failure is
swallowed inside `dialogAddSubscription`: no 480 is sent, the
watched-resource set was already updated (a partial write), the record is
absent, and the expiry timer is still armed — with `undefined` as the
subscription in the timer map. -/
theorem dialog_store_failure_still_arms_timer :
    (initial {} { event := reqEvEx, expiry := some 3600 } dlgEx { hmsetFails := true }
        { etag := "33333", subId := "sid1" }).responses = []
    ∧ (initial {} { event := reqEvEx, expiry := some 3600 } dlgEx { hmsetFails := true }
        { etag := "33333", subId := "sid1" }).armed = [(0, some 3600)]
    ∧ (initial {} { event := reqEvEx, expiry := some 3600 } dlgEx { hmsetFails := true }
        { etag := "33333", subId := "sid1" }).dialogs = [("uas1", [⟨none, 0⟩])]
    ∧ smembers (initial {} { event := reqEvEx, expiry := some 3600 } dlgEx { hmsetFails := true }
        { etag := "33333", subId := "sid1" }).store (makeSubscribedResourceKey "bob@p.io") = [subNameEx]
    ∧ hgetall (initial {} { event := reqEvEx, expiry := some 3600 } dlgEx { hmsetFails := true }
        { etag := "33333", subId := "sid1" }).store subNameEx = none := by
  refine ⟨?_, ?_, ?_, ?_, ?_⟩ <;> decide

theorem mem_smembers_sadd (st : Store) (k m : String) : m ∈ smembers (sadd st k m) k := by
  simp only [sadd, smembers]
  rw [aget_aset_self]
  by_cases hm : m ∈ (aget st.sets k).getD []
  · simp [smembers, hm]
  · simp [smembers, hm]

/-- C3 (amended): when dialog establishment (`createUAS`) fails, the engine
answers 480 and performs no writes and arms no timer; but when the store
write of a dialog-package subscription fails, the failure is swallowed
inside the handler: no 480 is sent, the watched-resource set write persists
(a partial write), no record exists, and the expiry timer is still armed. -/
theorem initial_failure_handling_amended :
    (∀ (st : SA) (v : Validated) (dlg : Dlg) (b1 b2 : Bool) (fr : Fresh),
       initial st v dlg { createUASFails := true, saddFails := b1, hmsetFails := b2 } fr =
         { st with responses := st.responses ++ [{ status := 480 }] })
    ∧ (∀ (st : SA) (v : Validated) (dlg : Dlg) (fr : Fresh),
       v.event.eventType = some "dialog" →
       (initial st v dlg { hmsetFails := true } fr).responses = st.responses
       ∧ (initial st v dlg { hmsetFails := true } fr).armed = st.armed ++ [(st.nextTimer, v.expiry)]
       ∧ aget (initial st v dlg { hmsetFails := true } fr).dialogs dlg.id =
           some ((aget st.dialogs dlg.id).getD [] ++ [⟨none, st.nextTimer⟩])
       ∧ makeSubscriptionName (jsShow v.event.subscriber) (jsShow v.event.resource) ∈
           smembers (initial st v dlg { hmsetFails := true } fr).store
             (makeSubscribedResourceKey (jsShow v.event.resource))
       ∧ (∀ x, hgetall (initial st v dlg { hmsetFails := true } fr).store x = hgetall st.store x)) := by
  constructor
  · intro st v dlg b1 b2 fr
    simp [initial]
  · intro st v dlg fr hdlg
    have h1 : pkgHas v.event.eventType = true := by
      rw [hdlg]
      rfl
    simp only [initial, dbAddSubscription, dialogAddSubscription, h1, if_true,
      Bool.false_eq_true, if_false, startSubscriptionTimer, notifyFn]
    refine ⟨trivial, trivial, ?_, ?_, ?_⟩
    · exact aget_aset_self _ _ _
    · exact mem_smembers_sadd _ _ _
    · intro x
      rfl

theorem initial_failure_handling_witness :
    initial saEx { event := reqEvEx, expiry := some 1800 } dlgEx
        { createUASFails := true, saddFails := false, hmsetFails := false } {} =
      { saEx with responses := saEx.responses ++ [{ status := 480 }] }
    ∧ (initial {} { event := reqEvEx, expiry := some 3600 } dlgEx { hmsetFails := true }
        { etag := "33333", subId := "sid1" }).responses = ({} : SA).responses :=
  ⟨initial_failure_handling_amended.1 saEx { event := reqEvEx, expiry := some 1800 } dlgEx false false {},
   (initial_failure_handling_amended.2 {} { event := reqEvEx, expiry := some 3600 } dlgEx
      { etag := "33333", subId := "sid1" } rfl).1⟩

/-! ## Claim C5: expiry computation and the out-of-dialog zero-expiry request -/

/-- C5: for an inbound SUBSCRIBE carrying an Event header with a supported
event type, the computed expiry is the parsed Expires header value when that
header is present, else the event type's configured default, else 3600; and
whenever the computed expiry is exactly zero (the request being
out-of-dialog — `validate` only ever sees out-of-dialog requests), the
engine responds 200 and performs no store write and arms no timer: the
resulting state is unchanged except for the appended 200 response. -/
theorem computed_expiry_and_zero_expiry_noop
    (sup : List String) (cfg : ExpireCfg) (dom : Option String) (st : SA) (req : SipReq)
    (dlg : Dlg) (fl : Flags) (fr : Fresh) (e : String)
    (hEv : req.eventHdr = some e) (hSup : (parseEventHeader e).event ∈ sup) :
    (∀ s, req.expiresHdr = some s → computeExpiry req (parseEventHeader e).event cfg = jsParseInt s)
    ∧ (req.expiresHdr = none → cfg = none → computeExpiry req (parseEventHeader e).event cfg = some 3600)
    ∧ (∀ entries, req.expiresHdr = none → cfg = some entries →
         aget entries (parseEventHeader e).event = none →
         computeExpiry req (parseEventHeader e).event cfg = some 3600)
    ∧ (∀ entries n, req.expiresHdr = none → cfg = some entries →
         aget entries (parseEventHeader e).event = some n →
         computeExpiry req (parseEventHeader e).event cfg = some n)
    ∧ (computeExpiry req (parseEventHeader e).event cfg = some 0 →
         handleSubscribe sup cfg dom st req dlg fl fr =
           { st with responses := st.responses ++ [{ status := 200 }] }) := by
  refine ⟨?_, ?_, ?_, ?_, ?_⟩
  · intro s hs
    simp [computeExpiry, hs]
  · intro hs hcfg
    simp [computeExpiry, hs, hcfg, getDefaultSubscriptionExpiry]
  · intro entries hs hcfg hag
    simp [computeExpiry, hs, hcfg, getDefaultSubscriptionExpiry, hag]
  · intro entries n hs hcfg hag
    simp [computeExpiry, hs, hcfg, getDefaultSubscriptionExpiry, hag]
  · intro hzero
    rw [handleSubscribe, validate, hEv]
    simp only [hSup, if_true, hzero, if_pos]

theorem computed_expiry_witness :
    computeExpiry { eventHdr := some "dialog", expiresHdr := some "0" } (parseEventHeader "dialog").event none = some 0
    ∧ handleSubscribe ["dialog"] none none saEx
        { eventHdr := some "dialog", expiresHdr := some "0" } dlgEx {} {} =
        { saEx with responses := saEx.responses ++ [{ status := 200 }] } :=
  ⟨(computed_expiry_and_zero_expiry_noop ["dialog"] none none saEx
      { eventHdr := some "dialog", expiresHdr := some "0" } dlgEx {} {} "dialog" rfl
      (by decide)).1 "0" rfl,
   (computed_expiry_and_zero_expiry_noop ["dialog"] none none saEx
      { eventHdr := some "dialog", expiresHdr := some "0" } dlgEx {} {} "dialog" rfl
      (by decide)).2.2.2.2 (by decide)⟩

/-! ## Claim C8: the timer-map invariant -/

/-- C8: the `dialogs` Map invariant — every stored value a non-empty list
with at most one (subscription, timer) pair per event type — is preserved by
`startSubscriptionTimer` whenever the dialog does not already hold a pair
for the pushed subscription's event type (as at its call sites: a fresh UAS
dialog, or right after a successful clear), and by every successful
`clearSubscriptionTimer`, which moreover deletes the dialog's map entry
entirely when it removes the last pair. -/
theorem timer_map_invariant_preserved :
    (∀ (st : SA) (dlgId : String) (sub : Option SubRec) (expiry : Option Nat),
       timerMapInv st.dialogs →
       sub.map SubRec.eventType ∉ ((aget st.dialogs dlgId).getD []).map entryET →
       timerMapInv (startSubscriptionTimer st dlgId sub expiry).dialogs)
    ∧ (∀ (st : SA) (lookupId : String) (matchV : Option (Option String)) (andCancel : Bool) (st2 : SA),
       timerMapInv st.dialogs →
       clearSubscriptionTimer st lookupId matchV andCancel = Except.ok st2 →
       timerMapInv st2.dialogs ∧
       (∀ subs, aget st.dialogs lookupId = some subs → subs.length = 1 →
          aget st2.dialogs lookupId = none)) := by
  constructor
  · intro st dlgId sub expiry hInv hNotin
    intro p hp
    simp only [startSubscriptionTimer] at hp
    rcases mem_aset_cases hp with hmem | hpe
    · exact hInv p hmem
    · rw [hpe]
      refine ⟨by simp, ?_⟩
      rw [List.map_append]
      have hsub : (((aget st.dialogs dlgId).getD []).map entryET).Nodup := by
        cases hag : aget st.dialogs dlgId with
        | none => simp
        | some l =>
          simp only [Option.getD_some]
          exact (hInv (dlgId, l) (aget_mem hag)).2
      simp [List.nodup_append, hsub, entryET]
      simpa [entryET] using hNotin
  · intro st lookupId matchV andCancel st2 hInv heq
    rw [clearSubscriptionTimer] at heq
    cases hag : aget st.dialogs lookupId with
    | none =>
      rw [hag] at heq
      exact absurd heq (by simp)
    | some subs =>
      rw [hag] at heq
      by_cases hemp : subs.isEmpty
      · simp only [hemp, if_true] at heq
        exact absurd heq (by simp)
      · simp only [hemp, Bool.false_eq_true, if_false] at heq
        by_cases hany : subs.any (fun e => e.sub.isNone)
        · simp only [hany, if_true] at heq
          exact absurd heq (by simp)
        · simp only [hany, Bool.false_eq_true, if_false] at heq
          cases matchV with
          | none => simp at heq
          | some et =>
            simp only [] at heq
            cases hrem : subs.filter (fun e => e.sub.map SubRec.eventType == some et) with
            | nil => rw [hrem] at heq; simp at heq
            | cons e tl =>
              cases tl with
              | cons e2 t2 => rw [hrem] at heq; simp at heq
              | nil =>
                rw [hrem] at heq
                simp only [Except.ok.injEq] at heq
                have hdlg2 : st2.dialogs =
                    (if (subs.filter (fun e => !(e.sub.map SubRec.eventType == some et))).isEmpty
                     then adel st.dialogs lookupId
                     else aset st.dialogs lookupId (subs.filter (fun e => !(e.sub.map SubRec.eventType == some et)))) := by
                  rw [← heq]
                  by_cases hc : andCancel <;> simp [hc]
                constructor
                · intro p hp
                  rw [hdlg2] at hp
                  by_cases hke : (subs.filter (fun e => !(e.sub.map SubRec.eventType == some et))).isEmpty
                  · rw [if_pos hke] at hp
                    exact hInv p (mem_adel_sub hp)
                  · rw [if_neg hke] at hp
                    rcases mem_aset_cases hp with hmem | hpe
                    · exact hInv p hmem
                    · rw [hpe]
                      have hsub : ((subs.map entryET)).Nodup := (hInv (lookupId, subs) (aget_mem hag)).2
                      refine ⟨by simpa [List.isEmpty_iff] using hke, ?_⟩
                      have hsubl : ((subs.filter (fun e => !(e.sub.map SubRec.eventType == some et))).map entryET).Sublist (subs.map entryET) :=
                        (List.filter_sublist _).map entryET
                      exact hsub.sublist hsubl
                · intro subs0 hag0 hlen
                  injection hag0 with hss
                  rw [← hss] at hlen
                  have hpart := length_filter_partition (fun e => e.sub.map SubRec.eventType == some et) subs
                  rw [hrem] at hpart
                  simp at hpart
                  have hke : (subs.filter (fun e => !(e.sub.map SubRec.eventType == some et))).isEmpty := by
                    rw [List.isEmpty_iff, ← List.length_eq_zero]
                    omega
                  rw [hdlg2, if_pos hke]
                  exact aget_adel_self _ _

def stC8 : SA := { dialogs := [("d1", [⟨some reqEvEx, 0⟩])], nextTimer := 1 }

def stC8AfterClear : SA := { dialogs := [], cancelled := [0], nextTimer := 1 }

theorem timer_map_invariant_witness :
    timerMapInv (startSubscriptionTimer stC8 "d1" (some pkgSubEx) (some 60)).dialogs
    ∧ timerMapInv stC8AfterClear.dialogs
    ∧ aget stC8AfterClear.dialogs "d1" = none :=
  ⟨timer_map_invariant_preserved.1 stC8 "d1" (some pkgSubEx) (some 60) (by decide) (by decide),
   (timer_map_invariant_preserved.2 stC8 "d1" (some (some "dialog")) true stC8AfterClear
      (by decide) (by rfl)).1,
   (timer_map_invariant_preserved.2 stC8 "d1" (some (some "dialog")) true stC8AfterClear
      (by decide) (by rfl)).2 [⟨some reqEvEx, 0⟩] (by decide) (by decide)⟩

/-! ## Claim C6: terminal dialog-channel message fan-out -/

theorem hgetall_srem (st : Store) (k m x : String) : hgetall (srem st k m) x = hgetall st x := by
  rw [srem]
  cases aget st.sets k <;> rfl

theorem smembers_srem_self (st : Store) (k m : String) :
    smembers (srem st k m) k = (smembers st k).filter (fun x => !(x == m)) := by
  rw [srem]
  cases h : aget st.sets k with
  | none => simp [smembers, h]
  | some cur =>
    by_cases hc : (cur.filter (fun x => !(x == m))).isEmpty
    · simp only [hc, if_true, smembers, h, Option.getD_some, aget_adel_self]
      rw [List.isEmpty_iff] at hc
      rw [hc]
      rfl
    · simp only [hc, Bool.false_eq_true, if_false, smembers, h, Option.getD_some]
      rw [aget_aset_self]
      rfl

theorem notifyLoop_stale_step (wkey : String) (di : DInfo) (fails : String → Bool) (m : String) (rest : List String) (st : SA) (hm : hgetall st.store m = none) :
    notifyLoop wkey di fails st (m :: rest) =
      notifyLoop wkey di fails { st with store := srem st.store wkey m } rest := by
  rw [notifyLoop, hm]

theorem notifyLoop_live_step (wkey : String) (di : DInfo) (fails : String → Bool) (m : String) (rest : List String) (st : SA) (sd : HashObj) (hm : hgetall st.store m = some sd) :
    notifyLoop wkey di fails st (m :: rest) =
      notifyLoop wkey di fails { st with notifies := st.notifies ++ [mkDialogNotify sd di (!(fails m))] } rest := by
  rw [notifyLoop, hm]

theorem notifyLoop_preserves (wkey : String) (di : DInfo) (fails : String → Bool) (ms : List String) (st : SA) :
    (notifyLoop wkey di fails st ms).store.hashes = st.store.hashes
    ∧ (notifyLoop wkey di fails st ms).store.strs = st.store.strs
    ∧ (notifyLoop wkey di fails st ms).store.zset = st.store.zset
    ∧ (notifyLoop wkey di fails st ms).dialogs = st.dialogs
    ∧ (notifyLoop wkey di fails st ms).responses = st.responses
    ∧ (notifyLoop wkey di fails st ms).armed = st.armed := by
  induction ms generalizing st with
  | nil => exact ⟨rfl, rfl, rfl, rfl, rfl, rfl⟩
  | cons m rest ih =>
    cases hm : hgetall st.store m with
    | none =>
      rw [notifyLoop_stale_step wkey di fails m rest st hm]
      obtain ⟨h1, h2, h3, h4, h5, h6⟩ := ih { st with store := srem st.store wkey m }
      have hs1 : (srem st.store wkey m).hashes = st.store.hashes := by
        rw [srem]
        cases aget st.store.sets wkey <;> rfl
      have hs2 : (srem st.store wkey m).strs = st.store.strs := by
        rw [srem]
        cases aget st.store.sets wkey <;> rfl
      have hs3 : (srem st.store wkey m).zset = st.store.zset := by
        rw [srem]
        cases aget st.store.sets wkey <;> rfl
      exact ⟨by rw [h1]; exact hs1, by rw [h2]; exact hs2, by rw [h3]; exact hs3, h4, h5, h6⟩
    | some sd =>
      rw [notifyLoop_live_step wkey di fails m rest st sd hm]
      exact ih _

theorem notifyLoop_notifies (wkey : String) (di : DInfo) (fails : String → Bool) (ms : List String) (st : SA) :
    (notifyLoop wkey di fails st ms).notifies =
      st.notifies ++ ms.filterMap
        (fun m => (hgetall st.store m).map (fun sd => mkDialogNotify sd di (!(fails m)))) := by
  induction ms generalizing st with
  | nil => simp [notifyLoop]
  | cons m rest ih =>
    cases hm : hgetall st.store m with
    | none =>
      rw [notifyLoop_stale_step wkey di fails m rest st hm]
      rw [ih]
      have hsame : ∀ x, hgetall (srem st.store wkey m) x = hgetall st.store x :=
        fun x => hgetall_srem st.store wkey m x
      simp [hsame, List.filterMap_cons, hm]
    | some sd =>
      rw [notifyLoop_live_step wkey di fails m rest st sd hm]
      rw [ih]
      simp [List.filterMap_cons, hm, List.append_assoc]

theorem notifyLoop_smembers (wkey : String) (di : DInfo) (fails : String → Bool) (ms : List String) (st : SA) :
    smembers (notifyLoop wkey di fails st ms).store wkey =
      (smembers st.store wkey).filter
        (fun x => !(decide (x ∈ ms) && (hgetall st.store x).isNone)) := by
  induction ms generalizing st with
  | nil => simp [notifyLoop]
  | cons m rest ih =>
    cases hm : hgetall st.store m with
    | none =>
      rw [notifyLoop_stale_step wkey di fails m rest st hm]
      rw [ih]
      have hsame : ∀ x, hgetall (srem st.store wkey m) x = hgetall st.store x :=
        fun x => hgetall_srem st.store wkey m x
      simp only [hsame]
      rw [smembers_srem_self]
      rw [List.filter_filter]
      refine List.filter_congr ?_
      intro x hx
      by_cases hxm : x = m
      · rw [hxm, hm]
        simp
      · simp [List.mem_cons, hxm]
    | some sd =>
      rw [notifyLoop_live_step wkey di fails m rest st sd hm]
      rw [ih]
      refine List.filter_congr ?_
      intro x hx
      by_cases hxm : x = m
      · rw [hxm, hm]
        simp
      · simp [List.mem_cons, hxm]

/-- The seven space-delimited fields of a well-formed dialog-channel message,
as `msg.split(' ')` destructures them. -/
def msgWords (aor id callId lTag rTag direction state : String) : List String :=
  [aor, id, callId, lTag, rTag, direction, state]

/-- The dialog-info object `onMessage` renders NOTIFY bodies from, built
from the destructured message fields (the token "undef" denotes an absent
tag). -/
def msgDInfo (aor id callId lTag rTag direction state : String) : DInfo :=
  { aor := some aor, id := some id, callId := some callId,
    localTag := if some lTag == some "undef" then none else some lTag,
    remoteTag := if some rTag == some "undef" then none else some rTag,
    direction := some direction, state := some state }

/-- C6: a dialog-channel message with a terminal state deletes the
resource's dialog-info record, sends exactly one NOTIFY — rendered from the
incoming message's fields — to each watcher whose subscription record is
live (one per live member of the watched-resource set, in order, each
delivered independently: member `m`'s send outcome is `!(fails m)` regardless of
other members), prunes every stale member from the watched-resource set
without sending it a NOTIFY, and touches neither the timer map nor the
response stream. -/
theorem dialog_terminal_fanout (st : SA) (aor id callId lTag rTag direction state : String)
    (fails : String → Bool)
    (hterm : state ∈ ["terminated", "rejected", "cancelled"]) :
    hgetall (onMessage st (msgWords aor id callId lTag rTag direction state) fails).store
        (makeDialogInfoKey aor) = none
    ∧ (onMessage st (msgWords aor id callId lTag rTag direction state) fails).notifies =
        st.notifies ++
          (smembers (redisDel st.store (makeDialogInfoKey aor)) (makeSubscribedResourceKey aor)).filterMap
            (fun m => (hgetall (redisDel st.store (makeDialogInfoKey aor)) m).map
              (fun sd => mkDialogNotify sd (msgDInfo aor id callId lTag rTag direction state) (!(fails m))))
    ∧ smembers (onMessage st (msgWords aor id callId lTag rTag direction state) fails).store
          (makeSubscribedResourceKey aor) =
        (smembers (redisDel st.store (makeDialogInfoKey aor)) (makeSubscribedResourceKey aor)).filter
          (fun m => (hgetall (redisDel st.store (makeDialogInfoKey aor)) m).isSome)
    ∧ (onMessage st (msgWords aor id callId lTag rTag direction state) fails).dialogs = st.dialogs
    ∧ (onMessage st (msgWords aor id callId lTag rTag direction state) fails).responses = st.responses
    ∧ (onMessage st (msgWords aor id callId lTag rTag direction state) fails).armed = st.armed := by
  have hc : (msgWords aor id callId lTag rTag direction state).get? 6 ∈
      [some "terminated", some "rejected", some "cancelled"] := by
    simpa [msgWords] using hterm
  have hred : onMessage st (msgWords aor id callId lTag rTag direction state) fails =
      notifyLoop (makeSubscribedResourceKey aor)
        (msgDInfo aor id callId lTag rTag direction state) fails
        { st with store := redisDel st.store (makeDialogInfoKey aor) }
        (smembers (redisDel st.store (makeDialogInfoKey aor)) (makeSubscribedResourceKey aor)) := by
    rw [onMessage]
    rw [if_pos hc]
    rfl
  refine ⟨?_, ?_, ?_, ?_, ?_, ?_⟩
  · rw [hred, hgetall]
    rw [(notifyLoop_preserves _ _ _ _ _).1]
    exact aget_adel_self _ _
  · rw [hred, notifyLoop_notifies]
  · rw [hred, notifyLoop_smembers]
    refine List.filter_congr ?_
    intro x hx
    simp only [hx, decide_eq_true_eq]
    have hx2 : x ∈ smembers (redisDel st.store (makeDialogInfoKey aor)) (makeSubscribedResourceKey aor) := hx
    simp [hx2]
  · rw [hred]
    exact (notifyLoop_preserves _ _ _ _ _).2.2.2.1
  · rw [hred]
    exact (notifyLoop_preserves _ _ _ _ _).2.2.2.2.1
  · rw [hred]
    exact (notifyLoop_preserves _ _ _ _ _).2.2.2.2.2

def stW : SA :=
  { store :=
    { hashes := [("w1", [("dialogId", "d1"), ("aor", "bob@p.io"), ("count", "0")]),
                 ("w2", [("dialogId", "d2"), ("aor", "bob@p.io"), ("count", "0")])],
      sets := [("watched-aor:bob@p.io", ["w1", "w2", "w3"])] } }

def failsW : String → Bool := fun m => m == "w1"

theorem dialog_terminal_fanout_witness :
    hgetall (onMessage stW (msgWords "bob@p.io" "id1" "cid9" "lt" "rt" "recv" "terminated") failsW).store
        (makeDialogInfoKey "bob@p.io") = none
    ∧ (onMessage stW (msgWords "bob@p.io" "id1" "cid9" "lt" "rt" "recv" "terminated") failsW).notifies =
        stW.notifies ++
          (smembers (redisDel stW.store (makeDialogInfoKey "bob@p.io")) (makeSubscribedResourceKey "bob@p.io")).filterMap
            (fun m => (hgetall (redisDel stW.store (makeDialogInfoKey "bob@p.io")) m).map
              (fun sd => mkDialogNotify sd (msgDInfo "bob@p.io" "id1" "cid9" "lt" "rt" "recv" "terminated") (!(failsW m))))
    ∧ smembers (onMessage stW (msgWords "bob@p.io" "id1" "cid9" "lt" "rt" "recv" "terminated") failsW).store
          (makeSubscribedResourceKey "bob@p.io") =
        (smembers (redisDel stW.store (makeDialogInfoKey "bob@p.io")) (makeSubscribedResourceKey "bob@p.io")).filter
          (fun m => (hgetall (redisDel stW.store (makeDialogInfoKey "bob@p.io")) m).isSome)
    ∧ (onMessage stW (msgWords "bob@p.io" "id1" "cid9" "lt" "rt" "recv" "terminated") failsW).dialogs = stW.dialogs
    ∧ (onMessage stW (msgWords "bob@p.io" "id1" "cid9" "lt" "rt" "recv" "terminated") failsW).responses = stW.responses
    ∧ (onMessage stW (msgWords "bob@p.io" "id1" "cid9" "lt" "rt" "recv" "terminated") failsW).armed = stW.armed :=
  dialog_terminal_fanout stW "bob@p.io" "id1" "cid9" "lt" "rt" "recv" "terminated" failsW (by decide)
